import Mathlib

/-!
Shallow embedding of the Ops-Tracker Aggregation & Trend Analytics Engine.

The embedded code is `project_analytics` (src/app/api/projects.py) and
`lesion_change` (src/app/api/lesions.py), together with the data model from
src/app/models/*.py and the result schemas from src/app/schemas/analytics.py.

Modelling conventions:
- SQL tables are lists of records; a database is a structure of four lists.
- datetime values are integer timestamps (only their total order matters).
- Python floats are modelled as rationals.
- `db.get(Model, id)` is `List.find?` on the id column.
- SQL inner joins are literal row-level joins (flatMap / filterMap), so
  counts over join rows are lengths of the joined row lists.
- `GROUP BY f ORDER BY count DESC` is: one pair per distinct value with its
  multiplicity, then an insertion sort by count descending.
- `ORDER BY measured_at ASC` is an insertion sort by timestamp.
- HTTP 404 is the `NotFound` error of an `Except`.
-/

namespace OpsTracker

/-- Model for the "projects" table (src/app/models/project.py). -/
structure Project where
  id : Nat
  name : String
  description : Option String
  created_at : Nat
deriving DecidableEq

/-- Model for the "subjects" table (src/app/models/subject.py). -/
structure Subject where
  id : Nat
  project_id : Nat
  subject_code : String
  sex : Option String
  age_at_diagnosis : Option Nat
  cancer_type : Option String
  stage : Option String
  created_at : Nat
deriving DecidableEq

/-- Model for the "lesions" table (src/app/models/lesion.py). -/
structure Lesion where
  id : Nat
  subject_id : Nat
  lesion_label : String
  anatomic_site : Option String
  laterality : Option String
  modality : Option String
  created_at : Nat
deriving DecidableEq

/-- Model for the "lesion_measurements" table
(src/app/models/lesion_measurement.py).  `longest_diameter_mm`,
`short_axis_mm` and `confidence` are non-nullable columns, hence plain `ℚ`;
the nullable columns are `Option`. -/
structure LesionMeasurement where
  id : Nat
  lesion_id : Nat
  timepoint : String
  measured_at : Nat
  longest_diameter_mm : ℚ
  short_axis_mm : ℚ
  volume_mm3 : Option ℚ
  mean_hu : Option ℚ
  suv_max : Option ℚ
  reviewer : Option String
  confidence : ℚ
deriving DecidableEq

/-- The check constraints declared on the "lesion_measurements" table
(src/app/models/lesion_measurement.py, `__table_args__`):
`longest_diameter_mm >= 0`, `short_axis_mm >= 0`,
`confidence >= 0 AND confidence <= 1`.  The creation schema
(src/app/schemas/lesion_measurement.py) validates the same bounds with
`Field(ge=0)` and `Field(ge=0, le=1)`, so every stored row satisfies this. -/
def measurementChecks (m : LesionMeasurement) : Prop :=
  0 ≤ m.longest_diameter_mm ∧ 0 ≤ m.short_axis_mm ∧
    (0 ≤ m.confidence ∧ m.confidence ≤ 1)

instance (m : LesionMeasurement) : Decidable (measurementChecks m) := by
  unfold measurementChecks
  infer_instance

/-- A point-in-time snapshot of the four tables. -/
structure DB where
  projects : List Project
  subjects : List Subject
  lesions : List Lesion
  measurements : List LesionMeasurement
deriving DecidableEq

/-- The only error the analytics endpoints raise themselves: HTTP 404. -/
inductive ApiError where
  | NotFound
deriving DecidableEq

/-- Schema `DateRange` (src/app/schemas/analytics.py).  The source field
`end` is a Lean keyword, hence `end_`. -/
structure DateRange where
  start : Option Nat
  end_ : Option Nat
deriving DecidableEq

/-- Schema `ProjectAnalytics` (src/app/schemas/analytics.py); `CountByValue`
pairs are `value × count`. -/
structure ProjectAnalytics where
  project_id : Nat
  subjects : Nat
  lesions : Nat
  measurements : Nat
  modalities : List (Option String × Nat)
  timepoints : List (String × Nat)
  measured_at_range : DateRange
  avg_confidence : Option ℚ
deriving DecidableEq

/-- Schema `LesionChange` (src/app/schemas/analytics.py). -/
structure LesionChange where
  lesion_id : Nat
  baseline_measured_at : Option Nat
  baseline_longest_mm : Option ℚ
  latest_measured_at : Option Nat
  latest_longest_mm : Option ℚ
  pct_change_longest : Option ℚ
deriving DecidableEq

/-- Ordering used by `ORDER BY measured_at ASC`. -/
def measuredAtLE (a b : LesionMeasurement) : Prop :=
  a.measured_at ≤ b.measured_at

instance : DecidableRel measuredAtLE := fun a b =>
  inferInstanceAs (Decidable (a.measured_at ≤ b.measured_at))

instance : IsTotal LesionMeasurement measuredAtLE :=
  ⟨fun a b => Nat.le_total a.measured_at b.measured_at⟩

instance : IsTrans LesionMeasurement measuredAtLE :=
  ⟨fun _ _ _ h1 h2 => Nat.le_trans h1 h2⟩

/-- Ordering used by `ORDER BY count() DESC` on grouped rows. -/
def countDescRel {α : Type} (a b : α × Nat) : Prop :=
  b.2 ≤ a.2

instance {α : Type} : DecidableRel (@countDescRel α) := fun a b =>
  inferInstanceAs (Decidable (b.2 ≤ a.2))

instance {α : Type} : IsTotal (α × Nat) countDescRel :=
  ⟨fun a b => Nat.le_total b.2 a.2⟩

instance {α : Type} : IsTrans (α × Nat) countDescRel :=
  ⟨fun _ _ _ h1 h2 => Nat.le_trans h2 h1⟩

/-- Embeds `SELECT ... GROUP BY v ORDER BY count() DESC` over a column of values:
one row per distinct value carrying its multiplicity, sorted by count
descending. -/
def groupCount {α : Type} [DecidableEq α] (ks : List α) : List (α × Nat) :=
  List.insertionSort countDescRel (ks.dedup.map fun k => (k, ks.count k))

/-- Embeds `SELECT min(ts)`: `none` on an empty row set. -/
def minTs : List Nat → Option Nat
  | [] => none
  | t :: ts =>
    match minTs ts with
    | none => some t
    | some m => some (if t ≤ m then t else m)

/-- Embeds `SELECT max(ts)`: `none` on an empty row set. -/
def maxTs : List Nat → Option Nat
  | [] => none
  | t :: ts =>
    match maxTs ts with
    | none => some t
    | some m => some (if t ≤ m then m else t)

/-- The measurement rows of one lesion, ordered by `measured_at` ascending
(src/app/api/lesions.py, lines 94-98). -/
def measurementsOfLesion (db : DB) (lesion_id : Nat) : List LesionMeasurement :=
  List.insertionSort measuredAtLE
    (db.measurements.filter fun m => m.lesion_id == lesion_id)

/-- Join rows of `Lesion JOIN Subject ON Subject.id = Lesion.subject_id
WHERE Subject.project_id = pid` (src/app/api/projects.py, lines 97-102). -/
def lesionRows (db : DB) (project_id : Nat) : List Lesion :=
  db.lesions.flatMap fun l =>
    db.subjects.filterMap fun s =>
      if s.id = l.subject_id ∧ s.project_id = project_id then some l else none

/-- Join rows of `LesionMeasurement JOIN Lesion JOIN Subject WHERE
Subject.project_id = pid` (src/app/api/projects.py, lines 104-110). -/
def measurementRows (db : DB) (project_id : Nat) : List LesionMeasurement :=
  db.measurements.flatMap fun m =>
    db.lesions.flatMap fun l =>
      db.subjects.filterMap fun s =>
        if l.id = m.lesion_id ∧ s.id = l.subject_id ∧ s.project_id = project_id
        then some m else none

/-- The `lesion_change` endpoint (src/app/api/lesions.py, lines 90-122).  The
Python guard `if baseline.longest_diameter_mm and baseline.longest_diameter_mm > 0`
is truthiness (nonzero) conjoined with positivity, embedded literally. -/
def lesion_change (db : DB) (lesion_id : Nat) : Except ApiError LesionChange :=
  if (db.lesions.find? fun l => l.id == lesion_id) = none then
    Except.error ApiError.NotFound
  else
    match measurementsOfLesion db lesion_id with
    | [] =>
      Except.ok
        { lesion_id := lesion_id
          baseline_measured_at := none, baseline_longest_mm := none
          latest_measured_at := none, latest_longest_mm := none
          pct_change_longest := none }
    | baseline :: rest =>
      let latest := rest.getLastD baseline
      let pct : Option ℚ :=
        if baseline.longest_diameter_mm ≠ 0 ∧ baseline.longest_diameter_mm > 0 then
          some (((latest.longest_diameter_mm - baseline.longest_diameter_mm) /
            baseline.longest_diameter_mm) * 100)
        else none
      Except.ok
        { lesion_id := lesion_id
          baseline_measured_at := some baseline.measured_at
          baseline_longest_mm := some baseline.longest_diameter_mm
          latest_measured_at := some latest.measured_at
          latest_longest_mm := some latest.longest_diameter_mm
          pct_change_longest := pct }

/-- The `project_analytics` endpoint (src/app/api/projects.py, lines 88-156). -/
def project_analytics (db : DB) (project_id : Nat) :
    Except ApiError ProjectAnalytics :=
  if (db.projects.find? fun p => p.id == project_id) = none then
    Except.error ApiError.NotFound
  else
    let subjRows := db.subjects.filter fun s => s.project_id == project_id
    let lesRows := lesionRows db project_id
    let measRows := measurementRows db project_id
    Except.ok
      { project_id := project_id
        subjects := subjRows.length
        lesions := lesRows.length
        measurements := measRows.length
        modalities := groupCount (lesRows.map Lesion.modality)
        timepoints := groupCount (measRows.map LesionMeasurement.timepoint)
        measured_at_range :=
          { start := minTs (measRows.map LesionMeasurement.measured_at)
            end_ := maxTs (measRows.map LesionMeasurement.measured_at) }
        avg_confidence :=
          match measRows with
          | [] => none
          | _ :: _ =>
            some ((measRows.map LesionMeasurement.confidence).sum /
              (measRows.length : ℚ)) }

/-! Concrete sample data, used to instantiate the theorems below. -/

/-- Sample project 1: has one subject. -/
def proj1 : Project :=
  { id := 1, name := "alpha", description := none, created_at := 0 }

/-- Sample project 2: exists but owns no subjects. -/
def proj2 : Project :=
  { id := 2, name := "beta", description := none, created_at := 0 }

/-- Sample subject, owned by project 1. -/
def subj1 : Subject :=
  { id := 1, project_id := 1, subject_code := "S1", sex := none
    age_at_diagnosis := none, cancer_type := none, stage := none
    created_at := 0 }

/-- Lesion 1: CT, two measurements. -/
def les1 : Lesion :=
  { id := 1, subject_id := 1, lesion_label := "T1", anatomic_site := none
    laterality := none, modality := some "CT", created_at := 0 }

/-- Lesion 2: no modality, zero measurements. -/
def les2 : Lesion :=
  { id := 2, subject_id := 1, lesion_label := "T2", anatomic_site := none
    laterality := none, modality := none, created_at := 0 }

/-- Lesion 3: CT, exactly one (positive) measurement. -/
def les3 : Lesion :=
  { id := 3, subject_id := 1, lesion_label := "T3", anatomic_site := none
    laterality := none, modality := some "CT", created_at := 0 }

/-- Lesion 4: no modality, exactly one measurement with diameter 0. -/
def les4 : Lesion :=
  { id := 4, subject_id := 1, lesion_label := "T4", anatomic_site := none
    laterality := none, modality := none, created_at := 0 }

/-- Baseline measurement of lesion 1: 20 mm. -/
def meas1 : LesionMeasurement :=
  { id := 1, lesion_id := 1, timepoint := "baseline", measured_at := 10
    longest_diameter_mm := 20, short_axis_mm := 10, volume_mm3 := none
    mean_hu := none, suv_max := none, reviewer := none, confidence := 1 }

/-- Week-6 measurement of lesion 1: 24 mm. -/
def meas2 : LesionMeasurement :=
  { id := 2, lesion_id := 1, timepoint := "week_6", measured_at := 20
    longest_diameter_mm := 24, short_axis_mm := 11, volume_mm3 := none
    mean_hu := none, suv_max := none, reviewer := none, confidence := 1/2 }

/-- Only measurement of lesion 3: 5 mm. -/
def meas3 : LesionMeasurement :=
  { id := 3, lesion_id := 3, timepoint := "baseline", measured_at := 15
    longest_diameter_mm := 5, short_axis_mm := 3, volume_mm3 := none
    mean_hu := none, suv_max := none, reviewer := none, confidence := 3/4 }

/-- Only measurement of lesion 4: diameter exactly 0. -/
def meas4 : LesionMeasurement :=
  { id := 4, lesion_id := 4, timepoint := "baseline", measured_at := 5
    longest_diameter_mm := 0, short_axis_mm := 0, volume_mm3 := none
    mean_hu := none, suv_max := none, reviewer := none, confidence := 1 }

/-- The sample snapshot. -/
def dbSample : DB :=
  { projects := [proj1, proj2]
    subjects := [subj1]
    lesions := [les1, les2, les3, les4]
    measurements := [meas1, meas2, meas3, meas4] }

/-- The analytics overview of sample project 1: four lesions (two CT, two
without modality), four measurements (three at baseline, one at week 6),
timestamps spanning 5 to 20 and mean confidence (1 + 1/2 + 3/4 + 1)/4. -/
def paSample : ProjectAnalytics :=
  { project_id := 1, subjects := 1, lesions := 4, measurements := 4
    modalities := [(some "CT", 2), (none, 2)]
    timepoints := [("baseline", 3), ("week_6", 1)]
    measured_at_range := { start := some 5, end_ := some 20 }
    avg_confidence := some (13/16) }

/-! Helper lemmas. -/

/-- The ordered measurement rows of a lesion are a permutation of the
filtered table. -/
lemma measurementsOfLesion_perm (db : DB) (lid : Nat) :
    List.Perm (measurementsOfLesion db lid)
      (db.measurements.filter fun m => m.lesion_id == lid) :=
  List.perm_insertionSort _ _

/-- Every ordered measurement row of a lesion is a stored measurement. -/
lemma mem_measurementsOfLesion {db : DB} {lid : Nat} {m : LesionMeasurement}
    (h : m ∈ measurementsOfLesion db lid) : m ∈ db.measurements :=
  List.mem_of_mem_filter ((measurementsOfLesion_perm db lid).mem_iff.mp h)

/-! ### C3: zero measurements give an all-absent successful result -/

/-- C3: for every existing lesion with zero measurements, `lesion_change`
succeeds and returns a `LesionChange` echoing the lesion id with the
baseline timestamp, baseline diameter, latest timestamp, latest diameter and
percent change all absent. -/
theorem lesion_change_no_measurements (db : DB) (lid : Nat) (l : Lesion)
    (hl : (db.lesions.find? fun x => x.id == lid) = some l)
    (hrows : measurementsOfLesion db lid = []) :
    lesion_change db lid =
      Except.ok
        { lesion_id := lid
          baseline_measured_at := none, baseline_longest_mm := none
          latest_measured_at := none, latest_longest_mm := none
          pct_change_longest := none } := by
  unfold lesion_change
  rw [hl, hrows]
  simp

/-- Witness for C3 at lesion 2 of the sample database, which has no
measurements. -/
theorem lesion_change_no_measurements_witness :
    lesion_change dbSample 2 =
      Except.ok
        { lesion_id := 2
          baseline_measured_at := none, baseline_longest_mm := none
          latest_measured_at := none, latest_longest_mm := none
          pct_change_longest := none } :=
  lesion_change_no_measurements dbSample 2 les2 (by rfl) (by rfl)

/-- Evaluation of `lesion_change` on an existing lesion whose ordered
measurement list is non-empty: `rows[0]` is the baseline and `rows[-1]` the
latest. -/
lemma lesion_change_cons (db : DB) (lid : Nat) (l : Lesion)
    (b : LesionMeasurement) (rest : List LesionMeasurement)
    (hl : (db.lesions.find? fun x => x.id == lid) = some l)
    (hrows : measurementsOfLesion db lid = b :: rest) :
    lesion_change db lid =
      Except.ok
        { lesion_id := lid
          baseline_measured_at := some b.measured_at
          baseline_longest_mm := some b.longest_diameter_mm
          latest_measured_at := some (rest.getLastD b).measured_at
          latest_longest_mm := some (rest.getLastD b).longest_diameter_mm
          pct_change_longest :=
            if b.longest_diameter_mm ≠ 0 ∧ b.longest_diameter_mm > 0 then
              some (((rest.getLastD b).longest_diameter_mm -
                  b.longest_diameter_mm) / b.longest_diameter_mm * 100)
            else none } := by
  unfold lesion_change
  rw [hl, hrows]
  rfl

/-! ### C1: the percent-change formula and its guard -/

/-- C1: for every existing lesion with at least one measurement, the percent
change equals `(latest - baseline) / baseline * 100` when the baseline
longest diameter is strictly positive, and is absent when it is 0; in the
absent case the call still succeeds with the other fields populated. -/
theorem lesion_change_pct_cases (db : DB) (lid : Nat) (l : Lesion)
    (b : LesionMeasurement) (rest : List LesionMeasurement)
    (hl : (db.lesions.find? fun x => x.id == lid) = some l)
    (hrows : measurementsOfLesion db lid = b :: rest) :
    ∃ r, lesion_change db lid = Except.ok r ∧
      (0 < b.longest_diameter_mm →
        r.pct_change_longest =
          some (((rest.getLastD b).longest_diameter_mm -
            b.longest_diameter_mm) / b.longest_diameter_mm * 100)) ∧
      (b.longest_diameter_mm = 0 → r.pct_change_longest = none) ∧
      r.lesion_id = lid ∧
      r.baseline_measured_at = some b.measured_at ∧
      r.baseline_longest_mm = some b.longest_diameter_mm ∧
      r.latest_measured_at = some (rest.getLastD b).measured_at ∧
      r.latest_longest_mm = some (rest.getLastD b).longest_diameter_mm := by
  refine ⟨_, lesion_change_cons db lid l b rest hl hrows,
    ?_, ?_, rfl, rfl, rfl, rfl, rfl⟩
  · intro h
    have hc : b.longest_diameter_mm ≠ 0 ∧ b.longest_diameter_mm > 0 :=
      ⟨ne_of_gt h, h⟩
    simp [hc]
  · intro h
    simp [h]

/-- Witness for C1 at lesion 1 of the sample database: 20 mm at baseline and
24 mm at week 6 give a percent change of 20. -/
theorem lesion_change_pct_cases_witness :
    ∃ r, lesion_change dbSample 1 = Except.ok r ∧
      r.pct_change_longest = some 20 := by
  obtain ⟨r, hok, hpos, -⟩ :=
    lesion_change_pct_cases dbSample 1 les1 meas1 [meas2] (by rfl) (by rfl)
  refine ⟨r, hok, ?_⟩
  rw [hpos (by norm_num [meas1])]
  norm_num [meas1, meas2]

/-! ### C2: exactly one measurement -/

/-- Counterexample to C2 as stated: lesion 4 of the sample database has
exactly one measurement, whose longest diameter is 0; `lesion_change`
returns an absent percent change, not 0. -/
theorem single_zero_measurement_pct_not_zero :
    measurementsOfLesion dbSample 4 = [meas4] ∧
    (lesion_change dbSample 4).map LesionChange.pct_change_longest =
      Except.ok none ∧
    (Except.ok (none : Option ℚ) : Except ApiError (Option ℚ)) ≠
      Except.ok (some 0) := by
  refine ⟨rfl, rfl, ?_⟩
  simp

/-- C2 (amended): for every existing lesion with exactly one measurement M,
`lesion_change` returns baseline == latest == M, and the percent change is 0
when the longest diameter of M is strictly positive and absent otherwise. -/
theorem lesion_change_single_measurement (db : DB) (lid : Nat) (l : Lesion)
    (M : LesionMeasurement)
    (hl : (db.lesions.find? fun x => x.id == lid) = some l)
    (hrows : measurementsOfLesion db lid = [M]) :
    lesion_change db lid =
      Except.ok
        { lesion_id := lid
          baseline_measured_at := some M.measured_at
          baseline_longest_mm := some M.longest_diameter_mm
          latest_measured_at := some M.measured_at
          latest_longest_mm := some M.longest_diameter_mm
          pct_change_longest :=
            if 0 < M.longest_diameter_mm then some 0 else none } := by
  rw [lesion_change_cons db lid l M [] hl hrows]
  by_cases h : 0 < M.longest_diameter_mm
  · have hc : M.longest_diameter_mm ≠ 0 ∧ M.longest_diameter_mm > 0 :=
      ⟨ne_of_gt h, h⟩
    simp [hc, h]
  · have hc : ¬(M.longest_diameter_mm ≠ 0 ∧ M.longest_diameter_mm > 0) :=
      fun hc => h hc.2
    simp [hc, h]

/-- Witness for the amended C2 at lesion 3 of the sample database, which has
exactly one 5 mm measurement. -/
theorem lesion_change_single_measurement_witness :
    lesion_change dbSample 3 =
      Except.ok
        { lesion_id := 3
          baseline_measured_at := some meas3.measured_at
          baseline_longest_mm := some meas3.longest_diameter_mm
          latest_measured_at := some meas3.measured_at
          latest_longest_mm := some meas3.longest_diameter_mm
          pct_change_longest :=
            if 0 < meas3.longest_diameter_mm then some 0 else none } :=
  lesion_change_single_measurement dbSample 3 les3 meas3 (by rfl) (by rfl)

/-! ### C9: non-nullable longest diameter -/

/-- C9: `longest_diameter_mm` is a non-nullable column (it is a plain `ℚ`
field of `LesionMeasurement`), so for every existing lesion with at least
one measurement the baseline and latest longest-diameter fields are always
present, and under the stored check constraints the percent change is absent
exactly when the baseline longest diameter is 0. -/
theorem lesion_change_longest_present (db : DB) (lid : Nat) (l : Lesion)
    (b : LesionMeasurement) (rest : List LesionMeasurement)
    (hck : ∀ m ∈ db.measurements, measurementChecks m)
    (hl : (db.lesions.find? fun x => x.id == lid) = some l)
    (hrows : measurementsOfLesion db lid = b :: rest) :
    ∃ r, lesion_change db lid = Except.ok r ∧
      r.baseline_longest_mm = some b.longest_diameter_mm ∧
      r.latest_longest_mm = some (rest.getLastD b).longest_diameter_mm ∧
      (r.pct_change_longest = none ↔ b.longest_diameter_mm = 0) := by
  have hb : 0 ≤ b.longest_diameter_mm := by
    have hmem : b ∈ measurementsOfLesion db lid := by
      rw [hrows]; exact List.mem_cons_self _ _
    exact (hck b (mem_measurementsOfLesion hmem)).1
  refine ⟨_, lesion_change_cons db lid l b rest hl hrows, rfl, rfl, ?_⟩
  by_cases h : b.longest_diameter_mm = 0
  · simp [h]
  · have hpos : 0 < b.longest_diameter_mm := lt_of_le_of_ne hb (Ne.symm h)
    have hc : b.longest_diameter_mm ≠ 0 ∧ b.longest_diameter_mm > 0 :=
      ⟨h, hpos⟩
    simp [hc, h]

/-- The sample measurements all satisfy the check constraints of the table. -/
lemma dbSample_checks : ∀ m ∈ dbSample.measurements, measurementChecks m := by
  intro m hm
  simp only [dbSample, List.mem_cons, List.not_mem_nil, or_false] at hm
  rcases hm with rfl | rfl | rfl | rfl <;>
    norm_num [measurementChecks, meas1, meas2, meas3, meas4]

/-- Witness for C9 at lesion 3 of the sample database. -/
theorem lesion_change_longest_present_witness :
    ∃ r, lesion_change dbSample 3 = Except.ok r ∧
      r.baseline_longest_mm = some meas3.longest_diameter_mm ∧
      r.latest_longest_mm = some (([] : List LesionMeasurement).getLastD
        meas3).longest_diameter_mm ∧
      (r.pct_change_longest = none ↔ meas3.longest_diameter_mm = 0) :=
  lesion_change_longest_present dbSample 3 les3 meas3 []
    dbSample_checks (by rfl) (by rfl)

/-! Lemmas about the grouping and min/max primitives. -/

/-- The sorted grouped rows are a permutation of one pair per distinct
value. -/
lemma groupCount_perm {α : Type} [DecidableEq α] (ks : List α) :
    List.Perm (groupCount ks) (ks.dedup.map fun k => (k, ks.count k)) :=
  List.perm_insertionSort _ _

/-- The counts in a grouped distribution sum to the number of grouped
rows. -/
lemma groupCount_sum {α : Type} [DecidableEq α] (ks : List α) :
    ((groupCount ks).map Prod.snd).sum = ks.length := by
  rw [((groupCount_perm ks).map Prod.snd).sum_eq, List.map_map]
  exact List.sum_map_count_dedup_eq_length ks

/-- Mapping the value component over one-pair-per-distinct-value recovers
the distinct values. -/
lemma groupCount_keys_perm {α : Type} [DecidableEq α] (ks : List α) :
    List.Perm ((groupCount ks).map Prod.fst) ks.dedup := by
  have h := (groupCount_perm ks).map Prod.fst
  rwa [List.map_map, show (Prod.fst ∘ fun k => (k, ks.count k)) = id from rfl,
    List.map_id] at h

/-- Each distinct value appears in exactly one grouped row. -/
lemma groupCount_keys_nodup {α : Type} [DecidableEq α] (ks : List α) :
    ((groupCount ks).map Prod.fst).Nodup :=
  (groupCount_keys_perm ks).nodup_iff.mpr (List.nodup_dedup ks)

/-- The grouped rows cover exactly the values occurring in the column. -/
lemma groupCount_mem_keys {α : Type} [DecidableEq α] (ks : List α) (v : α) :
    v ∈ (groupCount ks).map Prod.fst ↔ v ∈ ks := by
  rw [(groupCount_keys_perm ks).mem_iff, List.mem_dedup]

/-- Each grouped row carries the multiplicity of its value. -/
lemma groupCount_count_eq {α : Type} [DecidableEq α] (ks : List α)
    (v : α) (c : Nat) (h : (v, c) ∈ groupCount ks) : c = ks.count v := by
  have hm := (groupCount_perm ks).mem_iff.mp h
  rw [List.mem_map] at hm
  obtain ⟨k, -, hk⟩ := hm
  cases hk
  rfl

/-- Multiplicity of a value is the length of the filtered sublist. -/
lemma count_eq_filter_length {α : Type} [DecidableEq α] (v : α)
    (ks : List α) :
    ks.count v = (ks.filter fun x => x = v).length := by
  induction ks with
  | nil => rfl
  | cons x xs ih =>
    rw [List.count_cons, List.filter_cons]
    by_cases hx : x = v
    · simp [hx, ih]
    · simp [hx, ih]

/-- Each grouped row carries the number of rows holding its value. -/
lemma groupCount_count_filter {α : Type} [DecidableEq α] (ks : List α)
    (v : α) (c : Nat) (h : (v, c) ∈ groupCount ks) :
    c = (ks.filter fun x => x = v).length := by
  rw [groupCount_count_eq ks v c h]
  exact count_eq_filter_length v ks

/-- The grouped rows are sorted by count descending. -/
lemma groupCount_sorted {α : Type} [DecidableEq α] (ks : List α) :
    (groupCount ks).Pairwise fun a b => b.2 ≤ a.2 :=
  List.Pairwise.imp (fun h => h)
    (List.sorted_insertionSort countDescRel
      (ks.dedup.map fun k => (k, ks.count k)))

/-- Aggregate `min` is `none` exactly on the empty row set. -/
lemma minTs_eq_none_iff (l : List Nat) : minTs l = none ↔ l = [] := by
  cases l with
  | nil => simp [minTs]
  | cons t ts =>
    rw [minTs]
    cases minTs ts <;> simp

/-- Aggregate `max` is `none` exactly on the empty row set. -/
lemma maxTs_eq_none_iff (l : List Nat) : maxTs l = none ↔ l = [] := by
  cases l with
  | nil => simp [maxTs]
  | cons t ts =>
    rw [maxTs]
    cases maxTs ts <;> simp

/-- When present, `min` is an element and a lower bound. -/
lemma minTs_spec (l : List Nat) (a : Nat) (h : minTs l = some a) :
    a ∈ l ∧ ∀ t ∈ l, a ≤ t := by
  induction l generalizing a with
  | nil => simp [minTs] at h
  | cons t ts ih =>
    rw [minTs] at h
    cases hm : minTs ts with
    | none =>
      rw [hm] at h
      cases h
      have : ts = [] := (minTs_eq_none_iff ts).mp hm
      subst this
      simp
    | some m =>
      rw [hm] at h
      cases h
      obtain ⟨hmem, hle⟩ := ih m hm
      by_cases hc : t ≤ m
      · rw [if_pos hc]
        refine ⟨List.mem_cons_self _ _, ?_⟩
        intro x hx
        rcases List.mem_cons.mp hx with rfl | hx
        · exact Nat.le_refl _
        · exact Nat.le_trans hc (hle x hx)
      · rw [if_neg hc]
        refine ⟨List.mem_cons_of_mem _ hmem, ?_⟩
        intro x hx
        rcases List.mem_cons.mp hx with rfl | hx
        · exact Nat.le_of_not_le hc
        · exact hle x hx

/-- When present, `max` is an element and an upper bound. -/
lemma maxTs_spec (l : List Nat) (a : Nat) (h : maxTs l = some a) :
    a ∈ l ∧ ∀ t ∈ l, t ≤ a := by
  induction l generalizing a with
  | nil => simp [maxTs] at h
  | cons t ts ih =>
    rw [maxTs] at h
    cases hm : maxTs ts with
    | none =>
      rw [hm] at h
      cases h
      have : ts = [] := (maxTs_eq_none_iff ts).mp hm
      subst this
      simp
    | some m =>
      rw [hm] at h
      cases h
      obtain ⟨hmem, hle⟩ := ih m hm
      by_cases hc : t ≤ m
      · rw [if_pos hc]
        refine ⟨List.mem_cons_of_mem _ hmem, ?_⟩
        intro x hx
        rcases List.mem_cons.mp hx with rfl | hx
        · exact hc
        · exact hle x hx
      · rw [if_neg hc]
        refine ⟨List.mem_cons_self _ _, ?_⟩
        intro x hx
        rcases List.mem_cons.mp hx with rfl | hx
        · exact Nat.le_refl _
        · exact Nat.le_trans (hle x hx) (Nat.le_of_not_le hc)

/-- With no subject in the project there are no lesion join rows. -/
lemma lesionRows_eq_nil (db : DB) (pid : Nat)
    (hs : ∀ s ∈ db.subjects, ¬s.project_id = pid) :
    lesionRows db pid = [] := by
  rw [List.eq_nil_iff_forall_not_mem]
  intro l hl
  rw [lesionRows, List.mem_flatMap] at hl
  obtain ⟨l0, -, hmem⟩ := hl
  rw [List.mem_filterMap] at hmem
  obtain ⟨s, hsm, hif⟩ := hmem
  by_cases hc : s.id = l0.subject_id ∧ s.project_id = pid
  · exact hs s hsm hc.2
  · rw [if_neg hc] at hif
    cases hif

/-- With no subject in the project there are no measurement join rows. -/
lemma measurementRows_eq_nil (db : DB) (pid : Nat)
    (hs : ∀ s ∈ db.subjects, ¬s.project_id = pid) :
    measurementRows db pid = [] := by
  rw [List.eq_nil_iff_forall_not_mem]
  intro m hm
  rw [measurementRows, List.mem_flatMap] at hm
  obtain ⟨m0, -, hmem⟩ := hm
  rw [List.mem_flatMap] at hmem
  obtain ⟨l0, -, hmem⟩ := hmem
  rw [List.mem_filterMap] at hmem
  obtain ⟨s, hsm, hif⟩ := hmem
  by_cases hc : l0.id = m0.lesion_id ∧ s.id = l0.subject_id ∧
      s.project_id = pid
  · exact hs s hsm hc.2.2
  · rw [if_neg hc] at hif
    cases hif

/-- Every measurement join row is a stored measurement. -/
lemma mem_measurementRows {db : DB} {pid : Nat} {m : LesionMeasurement}
    (h : m ∈ measurementRows db pid) : m ∈ db.measurements := by
  rw [measurementRows, List.mem_flatMap] at h
  obtain ⟨m0, hm0, hmem⟩ := h
  rw [List.mem_flatMap] at hmem
  obtain ⟨l0, -, hmem⟩ := hmem
  rw [List.mem_filterMap] at hmem
  obtain ⟨s, -, hif⟩ := hmem
  by_cases hc : l0.id = m0.lesion_id ∧ s.id = l0.subject_id ∧
      s.project_id = pid
  · rw [if_pos hc] at hif
    cases hif
    exact hm0
  · rw [if_neg hc] at hif
    cases hif

/-- Field-level inversion of a successful `project_analytics` call. -/
lemma project_analytics_fields {db : DB} {pid : Nat} {r : ProjectAnalytics}
    (h : project_analytics db pid = Except.ok r) :
    r.project_id = pid ∧
    r.subjects = (db.subjects.filter fun s => s.project_id == pid).length ∧
    r.lesions = (lesionRows db pid).length ∧
    r.measurements = (measurementRows db pid).length ∧
    r.modalities = groupCount ((lesionRows db pid).map Lesion.modality) ∧
    r.timepoints =
      groupCount ((measurementRows db pid).map LesionMeasurement.timepoint) ∧
    r.measured_at_range.start =
      minTs ((measurementRows db pid).map LesionMeasurement.measured_at) ∧
    r.measured_at_range.end_ =
      maxTs ((measurementRows db pid).map LesionMeasurement.measured_at) ∧
    r.avg_confidence =
      (match measurementRows db pid with
        | [] => none
        | _ :: _ =>
          some (((measurementRows db pid).map
              LesionMeasurement.confidence).sum /
            ((measurementRows db pid).length : ℚ))) := by
  unfold project_analytics at h
  split at h
  · cases h
  · obtain rfl := (Except.ok.inj h).symm
    exact ⟨rfl, rfl, rfl, rfl, rfl, rfl, rfl, rfl, rfl⟩

/-- Evaluation of the analytics overview on the sample database. -/
lemma project_analytics_dbSample :
    project_analytics dbSample 1 = Except.ok paSample := by
  have h : project_analytics dbSample 1 = Except.ok
    { project_id := 1, subjects := 1, lesions := 4, measurements := 4
      modalities := [(some "CT", 2), (none, 2)]
      timepoints := [("baseline", 3), ("week_6", 1)]
      measured_at_range := { start := some 5, end_ := some 20 }
      avg_confidence :=
        some ((1 + (1/2 + (3/4 + (1 + 0)))) / ((4 : Nat) : ℚ)) } := rfl
  rw [h]
  simp [paSample]
  norm_num

/-! ### C4: NotFound exactly on missing ids, success otherwise -/

/-- C4: `project_analytics` fails with `NotFound` exactly when no project
with the requested id exists, and `lesion_change` fails with `NotFound`
exactly when no lesion with the requested id exists; when the id exists the
call returns a fully-formed `Except.ok` result (also on empty data). -/
theorem analytics_notFound_iff (db : DB) (pid lid : Nat) :
    (project_analytics db pid = Except.error ApiError.NotFound ↔
      (db.projects.find? fun p => p.id == pid) = none) ∧
    (∀ p, (db.projects.find? fun x => x.id == pid) = some p →
      ∃ r, project_analytics db pid = Except.ok r) ∧
    (lesion_change db lid = Except.error ApiError.NotFound ↔
      (db.lesions.find? fun x => x.id == lid) = none) ∧
    (∀ l, (db.lesions.find? fun x => x.id == lid) = some l →
      ∃ r, lesion_change db lid = Except.ok r) := by
  refine ⟨?_, ?_, ?_, ?_⟩
  · unfold project_analytics
    by_cases hc : (db.projects.find? fun p => p.id == pid) = none
    · rw [if_pos hc]
      simp [hc]
    · rw [if_neg hc]
      simp [hc]
  · intro p hp
    unfold project_analytics
    rw [hp, if_neg (by simp)]
    exact ⟨_, rfl⟩
  · unfold lesion_change
    by_cases hc : (db.lesions.find? fun x => x.id == lid) = none
    · rw [if_pos hc]
      simp [hc]
    · rw [if_neg hc]
      cases hrows : measurementsOfLesion db lid with
      | nil => simp [hc]
      | cons b rest => simp [hc]
  · intro l hl
    cases hrows : measurementsOfLesion db lid with
    | nil =>
      have hnil : lesion_change db lid =
          Except.ok
            { lesion_id := lid
              baseline_measured_at := none, baseline_longest_mm := none
              latest_measured_at := none, latest_longest_mm := none
              pct_change_longest := none } := by
        unfold lesion_change
        rw [hl, hrows]
        simp
      exact ⟨_, hnil⟩
    | cons b rest =>
      exact ⟨_, lesion_change_cons db lid l b rest hl hrows⟩

/-- Witness for C4 at the sample database with a missing project id 3 and a
missing lesion id 5. -/
theorem analytics_notFound_iff_witness :
    (project_analytics dbSample 3 = Except.error ApiError.NotFound ↔
      (dbSample.projects.find? fun p => p.id == 3) = none) ∧
    (∀ p, (dbSample.projects.find? fun x => x.id == 3) = some p →
      ∃ r, project_analytics dbSample 3 = Except.ok r) ∧
    (lesion_change dbSample 5 = Except.error ApiError.NotFound ↔
      (dbSample.lesions.find? fun x => x.id == 5) = none) ∧
    (∀ l, (dbSample.lesions.find? fun x => x.id == 5) = some l →
      ∃ r, lesion_change dbSample 5 = Except.ok r) :=
  analytics_notFound_iff dbSample 3 5

/-! ### C5: a project with zero subjects yields the all-empty summary -/

/-- C5: for every existing project owning zero subjects, the overview
succeeds with subject, lesion and measurement counts 0, empty
distributions, an absent date range and an absent (not zero) average
confidence. -/
theorem project_analytics_empty_project (db : DB) (pid : Nat) (p : Project)
    (hp : (db.projects.find? fun x => x.id == pid) = some p)
    (hs : (db.subjects.filter fun s => s.project_id == pid) = []) :
    project_analytics db pid =
      Except.ok
        { project_id := pid, subjects := 0, lesions := 0, measurements := 0
          modalities := [], timepoints := []
          measured_at_range := { start := none, end_ := none }
          avg_confidence := none } := by
  have hnos : ∀ s ∈ db.subjects, ¬s.project_id = pid := by
    intro s hsm
    have h2 := List.filter_eq_nil_iff.mp hs s hsm
    simpa using h2
  have hles : lesionRows db pid = [] := lesionRows_eq_nil db pid hnos
  have hmeas : measurementRows db pid = [] := measurementRows_eq_nil db pid hnos
  unfold project_analytics
  rw [hp]
  rw [if_neg (by simp), hs, hles, hmeas]
  rfl

/-- Witness for C5 at sample project 2, which owns no subjects. -/
theorem project_analytics_empty_project_witness :
    project_analytics dbSample 2 =
      Except.ok
        { project_id := 2, subjects := 0, lesions := 0, measurements := 0
          modalities := [], timepoints := []
          measured_at_range := { start := none, end_ := none }
          avg_confidence := none } :=
  project_analytics_empty_project dbSample 2 proj2 (by rfl) (by rfl)

/-! ### C6: distribution counts sum to the entity counts -/

/-- C6: in every successful overview, the modality-distribution counts sum
to `lesions` and the timepoint-distribution counts sum to `measurements`. -/
theorem distribution_sums (db : DB) (pid : Nat) (r : ProjectAnalytics)
    (h : project_analytics db pid = Except.ok r) :
    (r.modalities.map Prod.snd).sum = r.lesions ∧
    (r.timepoints.map Prod.snd).sum = r.measurements := by
  obtain ⟨-, -, hles, hmeas, hmod, htp, -, -, -⟩ := project_analytics_fields h
  rw [hmod, htp, hles, hmeas, groupCount_sum, groupCount_sum,
    List.length_map, List.length_map]
  exact ⟨rfl, rfl⟩

/-- Witness for C6 at sample project 1 (counts 2 + 2 = 4 lesions and
3 + 1 = 4 measurements). -/
theorem distribution_sums_witness :
    (paSample.modalities.map Prod.snd).sum = paSample.lesions ∧
    (paSample.timepoints.map Prod.snd).sum = paSample.measurements :=
  distribution_sums dbSample 1 paSample project_analytics_dbSample

/-! ### C7: shape and ordering of the distributions -/

/-- C7: in every successful overview, each distribution has exactly one
pair per distinct grouped value (null modality forming its own group), the
count of each pair is the multiplicity of its value among the join rows, and the pairs
are sorted by count descending. -/
theorem distribution_shape (db : DB) (pid : Nat) (r : ProjectAnalytics)
    (h : project_analytics db pid = Except.ok r) :
    ((r.modalities.map Prod.fst).Nodup ∧
      (∀ v, v ∈ r.modalities.map Prod.fst ↔
        v ∈ (lesionRows db pid).map Lesion.modality) ∧
      (∀ v c, (v, c) ∈ r.modalities →
        c = (((lesionRows db pid).map Lesion.modality).filter
          fun x => x = v).length) ∧
      r.modalities.Pairwise (fun a b => b.2 ≤ a.2)) ∧
    ((r.timepoints.map Prod.fst).Nodup ∧
      (∀ v, v ∈ r.timepoints.map Prod.fst ↔
        v ∈ (measurementRows db pid).map LesionMeasurement.timepoint) ∧
      (∀ v c, (v, c) ∈ r.timepoints →
        c = (((measurementRows db pid).map
          LesionMeasurement.timepoint).filter fun x => x = v).length) ∧
      r.timepoints.Pairwise (fun a b => b.2 ≤ a.2)) := by
  obtain ⟨-, -, -, -, hmod, htp, -, -, -⟩ := project_analytics_fields h
  rw [hmod, htp]
  exact ⟨⟨groupCount_keys_nodup _, fun v => groupCount_mem_keys _ v,
      fun v c hvc => groupCount_count_filter _ v c hvc, groupCount_sorted _⟩,
    ⟨groupCount_keys_nodup _, fun v => groupCount_mem_keys _ v,
      fun v c hvc => groupCount_count_filter _ v c hvc, groupCount_sorted _⟩⟩

/-- Witness for C7 at sample project 1. -/
theorem distribution_shape_witness :
    ((paSample.modalities.map Prod.fst).Nodup ∧
      (∀ v, v ∈ paSample.modalities.map Prod.fst ↔
        v ∈ (lesionRows dbSample 1).map Lesion.modality) ∧
      (∀ v c, (v, c) ∈ paSample.modalities →
        c = (((lesionRows dbSample 1).map Lesion.modality).filter
          fun x => x = v).length) ∧
      paSample.modalities.Pairwise (fun a b => b.2 ≤ a.2)) ∧
    ((paSample.timepoints.map Prod.fst).Nodup ∧
      (∀ v, v ∈ paSample.timepoints.map Prod.fst ↔
        v ∈ (measurementRows dbSample 1).map LesionMeasurement.timepoint) ∧
      (∀ v c, (v, c) ∈ paSample.timepoints →
        c = (((measurementRows dbSample 1).map
          LesionMeasurement.timepoint).filter fun x => x = v).length) ∧
      paSample.timepoints.Pairwise (fun a b => b.2 ≤ a.2)) :=
  distribution_shape dbSample 1 paSample project_analytics_dbSample

/-! ### C8: the measured-at range is the min/max of the subtree -/

/-- C8: in every successful overview, `measured_at_range.start` is the
minimum and `measured_at_range.end` the maximum of `measured_at` over the
measurement join rows of the project, both absent exactly when there are zero
measurements; whenever both are present, start ≤ end. -/
theorem measured_at_range_minmax (db : DB) (pid : Nat) (r : ProjectAnalytics)
    (h : project_analytics db pid = Except.ok r) :
    (r.measured_at_range.start = none ↔ measurementRows db pid = []) ∧
    (r.measured_at_range.end_ = none ↔ measurementRows db pid = []) ∧
    (∀ a, r.measured_at_range.start = some a →
      a ∈ (measurementRows db pid).map LesionMeasurement.measured_at ∧
      ∀ t ∈ (measurementRows db pid).map LesionMeasurement.measured_at,
        a ≤ t) ∧
    (∀ b, r.measured_at_range.end_ = some b →
      b ∈ (measurementRows db pid).map LesionMeasurement.measured_at ∧
      ∀ t ∈ (measurementRows db pid).map LesionMeasurement.measured_at,
        t ≤ b) ∧
    (∀ a b, r.measured_at_range.start = some a →
      r.measured_at_range.end_ = some b → a ≤ b) := by
  obtain ⟨-, -, -, -, -, -, hst, hen, -⟩ := project_analytics_fields h
  rw [hst, hen]
  refine ⟨(minTs_eq_none_iff _).trans List.map_eq_nil_iff,
    (maxTs_eq_none_iff _).trans List.map_eq_nil_iff,
    fun a ha => minTs_spec _ a ha,
    fun b hb => maxTs_spec _ b hb, ?_⟩
  intro a b ha hb
  exact (maxTs_spec _ b hb).2 a (minTs_spec _ a ha).1

/-- Witness for C8 at sample project 1 (range 5 to 20). -/
theorem measured_at_range_minmax_witness :
    (paSample.measured_at_range.start = none ↔
      measurementRows dbSample 1 = []) ∧
    (paSample.measured_at_range.end_ = none ↔
      measurementRows dbSample 1 = []) ∧
    (∀ a, paSample.measured_at_range.start = some a →
      a ∈ (measurementRows dbSample 1).map LesionMeasurement.measured_at ∧
      ∀ t ∈ (measurementRows dbSample 1).map LesionMeasurement.measured_at,
        a ≤ t) ∧
    (∀ b, paSample.measured_at_range.end_ = some b →
      b ∈ (measurementRows dbSample 1).map LesionMeasurement.measured_at ∧
      ∀ t ∈ (measurementRows dbSample 1).map LesionMeasurement.measured_at,
        t ≤ b) ∧
    (∀ a b, paSample.measured_at_range.start = some a →
      paSample.measured_at_range.end_ = some b → a ≤ b) :=
  measured_at_range_minmax dbSample 1 paSample project_analytics_dbSample

/-! ### C10: a present average confidence lies in [0, 1] -/

/-- C10: `confidence` is constrained to [0, 1] by the check
constraint (and the creation validation), so whenever the overview reports
a present `avg_confidence`, that value lies in [0, 1]. -/
theorem avg_confidence_in_unit_interval (db : DB) (pid : Nat)
    (r : ProjectAnalytics) (q : ℚ)
    (hck : ∀ m ∈ db.measurements, measurementChecks m)
    (h : project_analytics db pid = Except.ok r)
    (hq : r.avg_confidence = some q) :
    0 ≤ q ∧ q ≤ 1 := by
  obtain ⟨-, -, -, -, -, -, -, -, havg⟩ := project_analytics_fields h
  rw [havg] at hq
  cases hrows : measurementRows db pid with
  | nil =>
    rw [hrows] at hq
    cases hq
  | cons m0 ms =>
    rw [hrows] at hq
    simp only [] at hq
    obtain rfl := (Option.some.inj hq).symm
    have hconf : ∀ x ∈ (m0 :: ms).map LesionMeasurement.confidence,
        0 ≤ x ∧ x ≤ 1 := by
      intro x hx
      rw [List.mem_map] at hx
      obtain ⟨m, hm, rfl⟩ := hx
      have hrm : m ∈ measurementRows db pid := by
        rw [hrows]
        exact hm
      have hmem : m ∈ db.measurements := mem_measurementRows hrm
      exact (hck m hmem).2.2
    have hsum0 : 0 ≤ ((m0 :: ms).map LesionMeasurement.confidence).sum :=
      List.sum_nonneg fun x hx => (hconf x hx).1
    have hsum1 : ((m0 :: ms).map LesionMeasurement.confidence).sum ≤
        (((m0 :: ms).map LesionMeasurement.confidence).length : ℚ) * 1 := by
      have := List.sum_le_card_nsmul
        ((m0 :: ms).map LesionMeasurement.confidence) 1
        fun x hx => (hconf x hx).2
      rwa [nsmul_eq_mul] at this
    have hlen : (0 : ℚ) < ((m0 :: ms).length : ℚ) := by
      have : 0 < (m0 :: ms).length := Nat.succ_pos _
      exact_mod_cast this
    constructor
    · exact div_nonneg hsum0 (le_of_lt hlen)
    · rw [div_le_one hlen]
      have := hsum1
      rw [List.length_map, mul_one] at this
      exact this

/-- Witness for C10 at sample project 1 (average 13/16). -/
theorem avg_confidence_in_unit_interval_witness :
    (0 : ℚ) ≤ 13/16 ∧ (13 : ℚ)/16 ≤ 1 :=
  avg_confidence_in_unit_interval dbSample 1 paSample (13/16)
    dbSample_checks project_analytics_dbSample rfl

end OpsTracker
